import Mathlib

/-!
Shallow embedding of the Vertex container lifecycle engine and reverse-proxy
router, together with proofs about the embedded operations.

Each definition mirrors one Go function of the repository; the theorems at the
end of the file settle the frozen specification claims against them.  Effectful
collaborators (the Docker daemon, the filesystem, `os/exec`) are passed in as
explicit result oracles, so every operation is a pure, executable function of
its inputs and of the outcomes of the external calls it makes.
-/

namespace Vertex

/-! ## Status constants (`services/instance/instance.go`, `types` package) -/

def StatusOff : String := "off"
def StatusBuilding : String := "building"
def StatusRunning : String := "running"
def StatusError : String := "error"

/-! ## Go map semantics over association lists

Go maps are modelled as association lists with at most one entry per key;
assignment `m[k] = v` replaces the existing entry in place or appends a new
one. -/

/-- Go map assignment `m[k] = v` on an association list. -/
def mapSet (l : List (String × String)) (k v : String) : List (String × String) :=
  if l.any (fun p => p.1 = k) then
    l.map (fun p => if p.1 = k then (k, v) else p)
  else
    l ++ [(k, v)]

/-! ## Env Store (`repository/instance.go`: `SaveEnv` / `LoadEnv`)

The `.env` file content is modelled as a `String` of bytes.  `prior = none`
models a file that does not exist yet. -/

/-- The bytes `SaveEnv`'s write loop produces: one `KEY=VALUE\n` line per
entry, in iteration order (`strings.Join([]string{key, value}, "=") + "\n"`). -/
def envLines (m : List (String × String)) : String :=
  String.join (m.map (fun kv => kv.1 ++ "=" ++ kv.2 ++ "\n"))

/-- `SaveEnv` opens `<uuid>/.env` with `os.O_WRONLY|os.O_CREATE` — without
`os.O_TRUNC` — and writes the entry lines starting at offset 0.  Bytes of the
previous content beyond the written length therefore survive the save. -/
def saveEnv (prior : Option String) (m : List (String × String)) : String :=
  let written := envLines m
  written ++ (prior.getD "").drop written.length

/-- Split a character list at every occurrence of `c` (the semantics of Go's
`strings.Split` for a one-character separator): always at least one field, and
an empty final field when the input ends with the separator. -/
def splitOnChar (c : Char) : List Char → List (List Char)
  | [] => [[]]
  | x :: xs =>
    if x = c then [] :: splitOnChar c xs
    else
      match splitOnChar c xs with
      | [] => [[x]]
      | h :: t => (x :: h) :: t

/-- `strings.Split(s, sep)` for a one-character separator, over `String`. -/
def splitString (c : Char) (s : String) : List String :=
  (splitOnChar c s.toList).map (fun l => String.mk l)

/-- The lines `bufio.Scanner` yields for a file content: split on `\n`,
with no empty final token when the content ends in a newline (or is empty). -/
def scanLines (content : String) : List String :=
  let parts := splitString '\n' content
  if parts.getLast? = some "" then parts.dropLast else parts

/-- One iteration of `LoadEnv`'s scan loop: `strings.Split(line, "=")`; fewer
than two fields is the `failed to read .env` error, otherwise the entry is
`line[0] ↦ line[1]` (further fields are ignored, as in the Go code). -/
def parseEnvLine (line : String) : Except String (String × String) :=
  match splitString '=' line with
  | [] => .error "failed to read .env"
  | [_] => .error "failed to read .env"
  | k :: v :: _ => .ok (k, v)

/-- `LoadEnv` over a file content, starting from an empty entries map (the
fresh-process read): each scanned line is parsed and assigned into the map. -/
def loadEnv (content : String) : Except String (List (String × String)) :=
  (scanLines content).foldlM
    (fun acc line => (parseEnvLine line).map (fun kv => mapSet acc kv.1 kv.2)) []

/-! ## Container Registry (`repository/instance.go`)

`InstanceFSRepository` holds `instances : map[uuid.UUID]*types.Instance` and
`listeners : map[uuid.UUID]chan types.InstanceEvent`.  UUIDs are modelled as
`Nat`, the instance payload as a type parameter, and each listener channel as
the list of events delivered to it so far. -/

structure InstanceEvent where
  name : String
  deriving DecidableEq, Repr

/-- `EventChange`, the only event name the repository publishes. -/
def EventChange : String := "change"

structure Registry (α : Type) where
  instances : List (Nat × α)
  listeners : List (Nat × List InstanceEvent)
  deriving Repr

/-- `Exists(uuid)`: `r.instances[uuid] != nil`. -/
def regExists (r : Registry α) (u : Nat) : Bool :=
  r.instances.any (fun p => p.1 = u)

/-- `notifyListeners`: send the event on every listener channel. -/
def notifyListeners (r : Registry α) (e : InstanceEvent) : Registry α :=
  { r with listeners := r.listeners.map (fun l => (l.1, l.2 ++ [e])) }

/-- `Set(uuid, instance)`: reject when the uuid already exists (the catalog is
untouched, the Go method returns before any mutation); otherwise store the
instance and notify every listener with the change event.  The state-passing
pair returns the repository after the call and the returned error, if any. -/
def regSet (r : Registry α) (u : Nat) (inst : α) : Registry α × Option String :=
  if regExists r u then
    (r, some ("the instance '" ++ toString u ++ "' already exists"))
  else
    (notifyListeners { r with instances := r.instances ++ [(u, inst)] } ⟨EventChange⟩, none)

/-- `Delete(uuid)`: `os.RemoveAll` on the instance directory (its outcome is
the `removeAllOk` oracle; on failure the Go method returns before touching the
map), then remove the map entry and notify every listener. -/
def regDelete (r : Registry α) (u : Nat) (removeAllOk : Bool) : Registry α × Option String :=
  if removeAllOk then
    (notifyListeners { r with instances := r.instances.filter (fun p => p.1 ≠ u) } ⟨EventChange⟩,
      none)
  else
    (r, some ("failed to delete server uuid=" ++ toString u))

/-! ## Registry startup scan (`repository/instance.go`: `reload`)

`reload` reads the storage root (`os.ReadDir`), and for each entry that is a
directory or symlink parses its name as a UUID and loads it; `entry.Info()`
errors, `uuid.Parse` errors and `Load` errors are all passed to `log.Fatal`,
which terminates the process.  `uuid.Parse` and `Load` are external to this
function and passed as oracles; a fatal outcome is the `.error` branch. -/

structure DirEntry where
  name : String
  isDir : Bool
  isSymlink : Bool
  infoErr : Option String
  deriving DecidableEq, Repr

/-- The per-entry loop of `reload`.  Returns the UUIDs loaded, or the message
passed to `log.Fatal` when the scan kills the process. -/
def reloadEntries (parse : String → Option Nat) (load : Nat → Except String Unit) :
    List DirEntry → Except String (List Nat)
  | [] => .ok []
  | e :: rest =>
    match e.infoErr with
    | some msg => .error msg
    | none =>
      if e.isDir || e.isSymlink then
        match parse e.name with
        | none => .error ("invalid UUID " ++ e.name)
        | some id =>
          match load id with
          | .error msg => .error msg
          | .ok _ => (reloadEntries parse load rest).map (fun l => id :: l)
      else
        reloadEntries parse load rest

/-- `reload`: `os.ReadDir` failure (the `rootEntries` oracle) is fatal, then
the entries are scanned in order. -/
def reload (parse : String → Option Nat) (load : Nat → Except String Unit)
    (rootEntries : Except String (List DirEntry)) : Except String (List Nat) :=
  match rootEntries with
  | .error msg => .error msg
  | .ok es => reloadEntries parse load es

/-- An entry on which the scan's per-entry work fails: `entry.Info()` errors,
or the entry is a directory/symlink whose name does not parse or whose `Load`
fails. -/
def entryFails (parse : String → Option Nat) (load : Nat → Except String Unit)
    (e : DirEntry) : Bool :=
  e.infoErr.isSome ||
    ((e.isDir || e.isSymlink) &&
      match parse e.name with
      | none => true
      | some id => match load id with
        | .error _ => true
        | .ok _ => false)

/-! ## Reverse proxy redirect store (`apps/reverseproxy/adapter/proxy_fs.go`)

`redirects` is `types.ProxyRedirects = map[uuid.UUID]ProxyRedirect`; it is
modelled as an association list keyed by the redirect id. -/

structure ProxyRedirect where
  source : String
  target : String
  deriving DecidableEq, Repr

/-- `AddRedirect(id, redirect)`: Go map assignment `a.redirects[id] = redirect`
(the subsequent `a.write()` persists the same map and does not change it). -/
def addRedirect (rs : List (Nat × ProxyRedirect)) (id : Nat) (r : ProxyRedirect) :
    List (Nat × ProxyRedirect) :=
  if rs.any (fun p => p.1 = id) then
    rs.map (fun p => if p.1 = id then (id, r) else p)
  else
    rs ++ [(id, r)]

/-- `RemoveRedirect(id)`: Go map `delete(a.redirects, id)`. -/
def removeRedirect (rs : List (Nat × ProxyRedirect)) (id : Nat) :
    List (Nat × ProxyRedirect) :=
  rs.filter (fun p => p.1 ≠ id)

/-- `GetRedirectByHost(host)`: first stored redirect whose source is `host`. -/
def getRedirectByHost (rs : List (Nat × ProxyRedirect)) (host : String) :
    Option ProxyRedirect :=
  (rs.find? (fun p => p.2.source = host)).map (fun p => p.2)

inductive ProxyOp where
  | add (id : Nat) (r : ProxyRedirect)
  | remove (id : Nat)
  deriving DecidableEq, Repr

def applyProxyOp (rs : List (Nat × ProxyRedirect)) : ProxyOp → List (Nat × ProxyRedirect)
  | .add id r => addRedirect rs id r
  | .remove id => removeRedirect rs id

/-- A finite sequence of `AddRedirect`/`RemoveRedirect` calls applied in order. -/
def applyProxyOps (rs : List (Nat × ProxyRedirect)) (ops : List ProxyOp) :
    List (Nat × ProxyRedirect) :=
  ops.foldl applyProxyOp rs

/-! ## Docker runner (`repository/runner_docker.go`)

The Docker daemon is reached through the `client.Client`; every daemon call's
outcome is an oracle field of `DockerStartEffects`.  The instance's manifest
data (`instance.Methods.Docker`, `instance.EnvDefinitions`,
`instance.EnvVariables`) is embedded directly. -/

structure EnvDefinition where
  name : String
  type : String
  default : String
  deriving DecidableEq, Repr

structure DockerMethods where
  dockerfile : Option String
  image : Option String
  ports : Option (List String)
  volumes : Option (List (String × String))
  deriving DecidableEq, Repr

structure DockerInstance where
  uuid : String
  envDefinitions : List EnvDefinition
  envVariables : List (String × String)
  methods : DockerMethods
  deriving DecidableEq, Repr

/-- `instance.DockerImageName()`: `vertex_image_<uuid>`. -/
def dockerImageName (inst : DockerInstance) : String :=
  "vertex_image_" ++ inst.uuid

/-- `instance.DockerContainerName()`: `VERTEX_CONTAINER_<uuid>`. -/
def dockerContainerName (inst : DockerInstance) : String :=
  "VERTEX_CONTAINER_" ++ inst.uuid

/-- Go map read `instance.EnvVariables[name]`: the empty string when absent. -/
def envValue (vars : List (String × String)) (k : String) : String :=
  ((vars.find? (fun p => p.1 = k)).map (fun p => p.2)).getD ""

/-- The inner loop of the port-binding computation: the first env definition
with `Type == "port"` and `Default == out` (the loop `break`s on a match). -/
def findPortEnv (defs : List EnvDefinition) (out : String) : Option EnvDefinition :=
  defs.find? (fun e => e.type = "port" && e.default = out)

/-- One iteration of the outer port loop: when a matching env definition
exists, append `in + ":" + out` with `in` the current env value of that
definition's variable; otherwise append nothing. -/
def appendPortSpec (inst : DockerInstance) (all : List String) (out : String) : List String :=
  match findPortEnv inst.envDefinitions out with
  | some e => all ++ [envValue inst.envVariables e.name ++ ":" ++ out]
  | none => all

/-- The `all` list of port specs handed to `nat.ParsePortSpecs`, built by the
nested loops over `*instance.Methods.Docker.Ports` and
`instance.EnvDefinitions`.  With `Ports == nil` the loop body never runs. -/
def computePortSpecs (inst : DockerInstance) : List String :=
  match inst.methods.ports with
  | none => []
  | some ports => ports.foldl (appendPortSpec inst) []

/-- A container as returned by `ContainerList`: its name list and id. -/
structure DockerContainer where
  names : List String
  id : String
  deriving DecidableEq, Repr

inductive DockerError where
  | listFailed (msg : String)
  | containerNotFound
  | removeFailed (msg : String)
  deriving DecidableEq, Repr

/-- `getID(instance)`: list all containers, take each container's first name,
keep the id of the first one named `/VERTEX_CONTAINER_<uuid>`; an empty id at
the end of the loop is `ErrContainerNotFound`. -/
def getID (listResult : Except String (List DockerContainer))
    (containerName : String) : Except DockerError String :=
  match listResult with
  | .error msg => .error (.listFailed msg)
  | .ok cs =>
    let containerID :=
      (((cs.find? (fun c => (c.names.head?).getD "" = "/" ++ containerName)).map
        (fun c => c.id)).getD "")
    if containerID = "" then .error .containerNotFound else .ok containerID

/-- `Delete(instance)`: resolve the id with `getID` — returning its error when
it fails, including `ErrContainerNotFound` for an absent container — then
`ContainerRemove` (the `removeResult` oracle). -/
def dockerDelete (listResult : Except String (List DockerContainer))
    (containerName : String) (removeResult : String → Except String Unit) :
    Except DockerError Unit :=
  match getID listResult containerName with
  | .error e => .error e
  | .ok id =>
    match removeResult id with
    | .error msg => .error (.removeFailed msg)
    | .ok _ => .ok ()

/-- Outcomes of the external calls `Start` makes, in pipeline order. -/
structure DockerStartEffects where
  /-- Result of `buildImageFromDockerfile` / `buildImageFromName`
  (whichever branch the manifest selects). -/
  buildResult : Except String Unit
  /-- Result of `ContainerList` inside `getID`. -/
  listResult : Except String (List DockerContainer)
  /-- Result of `nat.ParsePortSpecs(all)` on the computed specs. -/
  parsePortsResult : Except String Unit
  /-- Result of the `filepath.Abs` calls of the volume loop. -/
  absResult : Except String Unit
  /-- Result of `createContainer` (`ContainerCreate`): the new container id. -/
  createResult : Except String String
  /-- Result of `ContainerStart` on the resolved or created id. -/
  startResult : String → Except String Unit

/-- The observable trace of one `Start` call: the statuses passed to
`setStatus` in order, the messages passed to `onErr`, and the returned
error (`none` on success). -/
structure StartTrace where
  statuses : List String
  errLogs : List String
  result : Option String
  deriving DecidableEq, Repr

/-- The tail of `Start` from `ContainerStart` on: a failure sets status
`error` and returns it; success sets status `running` and returns `nil`. -/
def dockerStartFrom (eff : DockerStartEffects) (id : String) : StartTrace :=
  match eff.startResult id with
  | .error e => ⟨[StatusBuilding, StatusError], [], some e⟩
  | .ok _ => ⟨[StatusBuilding, StatusRunning], [], none⟩

/-- The create phase of `Start`, entered when `getID` reports
`ErrContainerNotFound`: compute port specs and parse them, compute volume
binds (`filepath.Abs` on each source), `createContainer`, then start.  Each
failing step returns its error with no further `setStatus` call. -/
def dockerStartCreate (inst : DockerInstance) (eff : DockerStartEffects) : StartTrace :=
  match (if inst.methods.ports.isSome then eff.parsePortsResult else .ok ()) with
  | .error e => ⟨[StatusBuilding], [], some e⟩
  | .ok _ =>
    match (if inst.methods.volumes.isSome then eff.absResult else .ok ()) with
    | .error e => ⟨[StatusBuilding], [], some e⟩
    | .ok _ =>
      match eff.createResult with
      | .error e => ⟨[StatusBuilding], [], some e⟩
      | .ok id => dockerStartFrom eff id

/-- `Start(instance, onLog, onErr, setStatus)`: `setStatus(building)`; build
from the Dockerfile when `Methods.Docker.Dockerfile != nil`, else pull when
`Methods.Docker.Image != nil`, else fail with `no Docker methods found` — a
build failure is passed to `onErr` and returned; then `getID`, creating the
container when it does not exist; then `ContainerStart`; then
`setStatus(running)`. -/
def dockerStart (inst : DockerInstance) (eff : DockerStartEffects) : StartTrace :=
  match (if inst.methods.dockerfile.isSome then eff.buildResult
    else if inst.methods.image.isSome then eff.buildResult
    else .error "no Docker methods found" : Except String Unit) with
  | .error e => ⟨[StatusBuilding], [e], some e⟩
  | .ok _ =>
    match getID eff.listResult (dockerContainerName inst) with
    | .error .containerNotFound => dockerStartCreate inst eff
    | .error (.listFailed e) => ⟨[StatusBuilding], [], some e⟩
    | .error (.removeFailed e) => ⟨[StatusBuilding], [], some e⟩
    | .ok id => dockerStartFrom eff id

/-! ## Native runner (`services/instance/instance.go`: `startManually`)

The filesystem `os.Stat` probes, the two `StdoutPipe`/`StderrPipe` calls, the
`cmd.Start()` spawn and the reaper's `cmd.Wait()` are oracles.  The reaper
goroutine is modelled synchronously, run to the process's eventual exit. -/

inductive StatResult where
  | found
  | notExist
  | statErr (msg : String)
  deriving DecidableEq, Repr

structure NativeEffects where
  /-- `os.Stat(dir/<service.id>)`. -/
  statMain : StatResult
  /-- `os.Stat(dir/<service.id>.sh)`, probed only when the first is absent. -/
  statSh : StatResult
  /-- `cmd.StdoutPipe()`. -/
  stdoutPipe : Except String Unit
  /-- `cmd.StderrPipe()`. -/
  stderrPipe : Except String Unit
  /-- `cmd.Start()`. -/
  spawnResult : Except String Unit
  /-- Whether `cmd.Wait()` reports a non-zero exit. -/
  waitFails : Bool

/-- The observable outcome of `startManually`: statuses passed to
`i.setStatus` in order (the reaper's final status included), whether `i.cmd`
is still set once everything has settled, and the returned error. -/
structure NativeTrace where
  statuses : List String
  cmdSet : Bool
  result : Option String
  deriving DecidableEq, Repr

/-- `startManually` after the executable has been located: `i.cmd` is
assigned, the two pipes are created (a failure returns with no status change),
then `setStatus(StatusRunning)` is called, then `cmd.Start()` — a spawn
failure returns the error with the status already set to running — and on
success the reaper awaits the exit and calls `setStatus(StatusOff)`; no code
path clears `i.cmd`. -/
def nativeStartSpawn (eff : NativeEffects) : NativeTrace :=
  match eff.stdoutPipe with
  | .error e => ⟨[], true, some e⟩
  | .ok _ =>
    match eff.stderrPipe with
    | .error e => ⟨[], true, some e⟩
    | .ok _ =>
      match eff.spawnResult with
      | .error e => ⟨[StatusRunning], true, some e⟩
      | .ok _ => ⟨[StatusRunning, StatusOff], true, none⟩

/-- `startManually`: probe `dir/<id>` then `dir/<id>.sh`; both absent is the
`executable not found` error, a probe error is returned as-is; otherwise
assign `i.cmd` and continue with `nativeStartSpawn`. -/
def startManually (serviceId : String) (eff : NativeEffects) : NativeTrace :=
  match eff.statMain with
  | .notExist =>
    match eff.statSh with
    | .notExist =>
      ⟨[], false, some ("the executable " ++ serviceId ++ " (or " ++ serviceId ++
        ".sh) was not found at path")⟩
    | .statErr msg => ⟨[], false, some msg⟩
    | .found => nativeStartSpawn eff
  | .statErr msg => ⟨[], false, some msg⟩
  | .found => nativeStartSpawn eff

/-- The executable-discovery phase succeeds: `dir/<id>` exists, or it is
absent and `dir/<id>.sh` exists. -/
def execFound (eff : NativeEffects) : Bool :=
  match eff.statMain, eff.statSh with
  | .found, _ => true
  | .notExist, .found => true
  | _, _ => false

/-- Both pipe creations succeed. -/
def pipesOk (eff : NativeEffects) : Bool :=
  eff.stdoutPipe.isOk && eff.stderrPipe.isOk

/-! ## Container service update (`apps/containers/core/service`: `Update`)

`types.MaxSupportedVersion` lives outside the sources under scrutiny, so the
bound is abstracted as the `maxSupported` argument; the behaviour of `Update`
is the same for every value of the constant.  `adapter.Save`'s outcome is the
`saveResult` oracle.  `Save` assigns `inst.Service = service` *before* calling
the adapter, so the in-memory manifest is replaced even when persisting
fails. -/

structure ContainerService where
  version : Int
  body : String
  deriving DecidableEq, Repr

structure Container where
  uuid : String
  service : ContainerService
  serviceUpdateAvailable : Bool
  deriving DecidableEq, Repr

/-- `ContainerServiceService.Save`: mutate `inst.Service`, then persist. -/
def containerServiceSave (inst : Container) (service : ContainerService)
    (saveResult : Except String Unit) : Container × Option String :=
  ({ inst with service := service },
    match saveResult with
    | .error e => some e
    | .ok _ => none)

/-- `ContainerServiceService.Update`: upgrade (via `Save`) when
`service.Version <= types.MaxSupportedVersion`; otherwise only log
`service version is not supported, skipping.` and return `nil`. -/
def containerServiceUpdate (maxSupported : Int) (inst : Container)
    (service : ContainerService) (saveResult : Except String Unit) :
    Container × Option String :=
  if service.version ≤ maxSupported then
    containerServiceSave inst service saveResult
  else
    (inst, none)

/-- `CheckForUpdate`: structural equality with the latest manifest sets
`ServiceUpdate.Available` without touching `inst.Service`. -/
def checkForUpdate (inst : Container) (latest : ContainerService) : Container :=
  { inst with serviceUpdateAvailable := !(latest = inst.service : Bool) }

/-! ## Instance settings load (`apps/instances/service/instance_settings.go`)

The settings adapter is outside the embedded sources; its outcome is the
`adapterResult` oracle. -/

structure InstanceSettings where
  displayName : String
  launchOnStartup : Option Bool
  tags : List String
  deriving DecidableEq, Repr

structure SettingsInstance where
  serviceName : String
  settings : InstanceSettings
  deriving DecidableEq, Repr

/-- `InstanceSettingsService.Load`: a failing adapter read returns the error
with the instance untouched; otherwise an empty `DisplayName` is replaced by
`inst.Service.Name` and the settings are stored on the instance. -/
def settingsLoad (adapterResult : Except String InstanceSettings)
    (inst : SettingsInstance) : SettingsInstance × Option String :=
  match adapterResult with
  | .error e => (inst, some e)
  | .ok s =>
    let s := if s.displayName = "" then { s with displayName := inst.serviceName } else s
    ({ inst with settings := s }, none)

/-! ## Theorems -/

/-- C2: the round-trip claim fails on the code.  `SaveEnv` opens the `.env`
file without `O_TRUNC`, so with prior content `AAAA=BBBB\n` saving the map
`{A ↦ B}` leaves the stale tail `=BBBB\n` behind, and `LoadEnv` returns the
extra entry `"" ↦ BBBB` instead of exactly the saved map — even though every
key and value of the saved map is free of `=` and newline.  (On a fresh file
the round trip does hold, confirming the write loop itself is as intended.) -/
theorem saveEnv_stale_tail_breaks_roundtrip :
    saveEnv (some "AAAA=BBBB\n") [("A", "B")] = "A=B\n=BBBB\n" ∧
    loadEnv (saveEnv (some "AAAA=BBBB\n") [("A", "B")]) =
      .ok [("A", "B"), ("", "BBBB")] ∧
    loadEnv (saveEnv none [("A", "B")]) = .ok [("A", "B")] :=
  ⟨rfl, rfl, rfl⟩

/-- C8: for every bound, container and service manifest whose version exceeds
the bound, `Update` returns success and leaves the container (in particular
its `Service`) unchanged. -/
theorem update_above_max_is_noop (maxSupported : Int) (inst : Container)
    (service : ContainerService) (saveResult : Except String Unit)
    (h : service.version > maxSupported) :
    containerServiceUpdate maxSupported inst service saveResult = (inst, none) := by
  unfold containerServiceUpdate
  rw [if_neg (not_le.mpr h)]

/-- C8 witness: updating a version-2 service under bound 1 is a no-op. -/
theorem update_above_max_is_noop_witness :
    containerServiceUpdate 1 ⟨"u", ⟨1, "old"⟩, false⟩ ⟨2, "new"⟩ (.ok ()) =
      (⟨"u", ⟨1, "old"⟩, false⟩, none) :=
  update_above_max_is_noop 1 ⟨"u", ⟨1, "old"⟩, false⟩ ⟨2, "new"⟩ (.ok ()) (by norm_num)

/-- C10: when the settings adapter read succeeds, an empty persisted display
name is replaced by the service manifest's name before the settings are stored
on the instance, so the loaded instance's display name is never empty when the
manifest has a name. -/
theorem settingsLoad_replaces_empty_display_name (inst : SettingsInstance)
    (s : InstanceSettings) :
    (s.displayName = "" →
      (settingsLoad (.ok s) inst).1.settings.displayName = inst.serviceName) ∧
    (inst.serviceName ≠ "" →
      (settingsLoad (.ok s) inst).1.settings.displayName ≠ "") ∧
    (settingsLoad (.ok s) inst).2 = none := by
  by_cases h : s.displayName = "" <;>
    simp [settingsLoad, h]

/-- C10 witness: loading settings with an empty display name on an instance
whose manifest is named `postgres` stores display name `postgres`. -/
theorem settingsLoad_replaces_empty_display_name_witness :
    (settingsLoad (.ok ⟨"", none, []⟩) ⟨"postgres", ⟨"x", none, []⟩⟩).1.settings.displayName =
      "postgres" ∧
    (settingsLoad (.ok ⟨"", none, []⟩) ⟨"postgres", ⟨"x", none, []⟩⟩).1.settings.displayName ≠
      "" :=
  ⟨(settingsLoad_replaces_empty_display_name ⟨"postgres", ⟨"x", none, []⟩⟩ ⟨"", none, []⟩).1 rfl,
   (settingsLoad_replaces_empty_display_name ⟨"postgres", ⟨"x", none, []⟩⟩ ⟨"", none, []⟩).2.1
     (by decide)⟩

/-- C9: `Set` on an already-present UUID returns the already-exists error and
leaves the repository (catalog and listeners) unchanged; a successful `Set`
stores the instance and appends the change event to every listener channel;
a successful `Delete` likewise notifies every listener. -/
theorem regSet_regDelete_events {α : Type} (r : Registry α) (u : Nat) (inst : α) :
    (regExists r u = true →
      regSet r u inst = (r, some ("the instance '" ++ toString u ++ "' already exists"))) ∧
    (regExists r u = false →
      (regSet r u inst).2 = none ∧
      regExists (regSet r u inst).1 u = true ∧
      (regSet r u inst).1.listeners =
        r.listeners.map (fun l => (l.1, l.2 ++ [⟨EventChange⟩]))) ∧
    ((regDelete r u true).2 = none ∧
      (regDelete r u true).1.listeners =
        r.listeners.map (fun l => (l.1, l.2 ++ [⟨EventChange⟩]))) := by
  refine ⟨fun h => ?_, fun h => ?_, ?_⟩
  · simp [regSet, h]
  · simp only [regExists] at h
    simp [regSet, regExists, h, notifyListeners, List.any_append]
  · simp [regDelete, notifyListeners]

/-- C9 witness: on a registry holding UUID 1 with one listener, `Set 1`
rejects without change, `Set 2` succeeds and notifies the listener, and
`Delete 1` succeeds and notifies the listener. -/
theorem regSet_regDelete_events_witness :
    regSet (Registry.mk [(1, "a")] [(7, [])]) 1 "b" =
      (Registry.mk [(1, "a")] [(7, [])], some "the instance '1' already exists") ∧
    (regSet (Registry.mk [(1, "a")] [(7, [])]) 2 "b").1.listeners =
      [(7, [⟨EventChange⟩])] ∧
    (regDelete (Registry.mk [(1, "a")] [(7, [])]) 1 true).1.listeners =
      [(7, [⟨EventChange⟩])] :=
  ⟨(regSet_regDelete_events (Registry.mk [(1, "a")] [(7, [])]) 1 "b").1 rfl,
   by rw [((regSet_regDelete_events (Registry.mk [(1, "a")] [(7, [])]) 2 "b").2.1 rfl).2.2]; rfl,
   by rw [(regSet_regDelete_events (Registry.mk [(1, "a")] [(7, [])]) 1 "b").2.2.2]; rfl⟩

/-- C6: the claim fails on the code.  With no container named
`/VERTEX_CONTAINER_<uuid>` in the daemon's list, `Delete` returns
`ErrContainerNotFound` (propagated from `getID`) instead of succeeding. -/
theorem dockerDelete_absent_returns_error :
    dockerDelete (.ok []) "VERTEX_CONTAINER_79e24647" (fun _ => .ok ()) =
      .error .containerNotFound ∧
    dockerDelete (.ok []) "VERTEX_CONTAINER_79e24647" (fun _ => .ok ()) ≠ .ok () := by
  refine ⟨rfl, fun h => ?_⟩
  rw [show dockerDelete (.ok []) "VERTEX_CONTAINER_79e24647" (fun _ => .ok ()) =
    Except.error DockerError.containerNotFound from rfl] at h
  exact Except.noConfusion h

/-- C6 amended: `Delete` removes the named container when it is present
(returning `ContainerRemove`'s outcome), but when the named container is
absent it returns `ErrContainerNotFound` rather than success. -/
theorem dockerDelete_spec (cs : List DockerContainer) (name : String)
    (rem : String → Except String Unit) :
    ((∀ c ∈ cs, (c.names.head?).getD "" ≠ "/" ++ name) →
      dockerDelete (.ok cs) name rem = .error .containerNotFound) ∧
    (∀ c, cs.find? (fun c => (c.names.head?).getD "" = "/" ++ name) = some c →
      c.id ≠ "" →
      dockerDelete (.ok cs) name rem =
        (match rem c.id with
          | .error m => .error (.removeFailed m)
          | .ok _ => .ok ())) := by
  constructor
  · intro habs
    have hfind : cs.find? (fun c => (c.names.head?).getD "" = "/" ++ name) = none := by
      rw [List.find?_eq_none]
      intro c hc
      simpa using habs c hc
    simp [dockerDelete, getID, hfind]
  · intro c hfind hid
    simp only [dockerDelete, getID, hfind, Option.map_some', Option.getD_some]
    rw [if_neg hid]

/-- C6 witness: with the daemon listing empty, `Delete` reports not-found;
with the named container present and removal succeeding, `Delete` succeeds. -/
theorem dockerDelete_spec_witness :
    dockerDelete (.ok []) "VERTEX_CONTAINER_0" (fun _ => .ok ()) =
      .error .containerNotFound ∧
    dockerDelete (.ok [⟨["/VERTEX_CONTAINER_0"], "42"⟩]) "VERTEX_CONTAINER_0"
      (fun _ => .ok ()) = .ok () :=
  ⟨(dockerDelete_spec [] "VERTEX_CONTAINER_0" (fun _ => .ok ())).1 (by decide),
   (dockerDelete_spec [⟨["/VERTEX_CONTAINER_0"], "42"⟩] "VERTEX_CONTAINER_0"
      (fun _ => .ok ())).2 ⟨["/VERTEX_CONTAINER_0"], "42"⟩ (by decide) (by decide)⟩

/-- Replacing every entry keyed `id` by `(id, r)` keeps the key list. -/
theorem keys_replace_eq (id : Nat) (r : ProxyRedirect) :
    ∀ rs : List (Nat × ProxyRedirect),
      (rs.map (fun p => if p.1 = id then (id, r) else p)).map Prod.fst = rs.map Prod.fst
  | [] => rfl
  | a :: t => by
    simp only [List.map_cons, keys_replace_eq id r t]
    by_cases h : a.1 = id
    · rw [if_pos h]
      simp [h]
    · rw [if_neg h]

/-- `AddRedirect` preserves distinctness of the redirect ids. -/
theorem addRedirect_keys_nodup (rs : List (Nat × ProxyRedirect)) (id : Nat)
    (r : ProxyRedirect) (h : (rs.map Prod.fst).Nodup) :
    ((addRedirect rs id r).map Prod.fst).Nodup := by
  unfold addRedirect
  split
  · rw [keys_replace_eq]
    exact h
  · rename_i hany
    rw [List.map_append, List.nodup_append]
    refine ⟨h, by simp, ?_⟩
    intro x hx hx2
    simp only [List.map_cons, List.map_nil, List.mem_singleton] at hx2
    subst hx2
    rw [List.any_eq_true] at hany
    rw [List.mem_map] at hx
    obtain ⟨p, hp, hpx⟩ := hx
    exact hany ⟨p, hp, by simp [hpx]⟩

/-- `RemoveRedirect` preserves distinctness of the redirect ids. -/
theorem removeRedirect_keys_nodup (rs : List (Nat × ProxyRedirect)) (id : Nat)
    (h : (rs.map Prod.fst).Nodup) :
    ((removeRedirect rs id).map Prod.fst).Nodup :=
  ((List.filter_sublist rs).map Prod.fst).nodup h

/-- Distinctness of the ids is invariant under any operation sequence. -/
theorem applyProxyOps_keys_nodup (ops : List ProxyOp) :
    ∀ rs : List (Nat × ProxyRedirect), (rs.map Prod.fst).Nodup →
      ((applyProxyOps rs ops).map Prod.fst).Nodup := by
  induction ops with
  | nil => exact fun rs h => h
  | cons op t ih =>
    intro rs h
    rw [applyProxyOps, List.foldl_cons]
    cases op with
    | add id r => exact ih _ (addRedirect_keys_nodup rs id r h)
    | remove id => exact ih _ (removeRedirect_keys_nodup rs id h)

/-- Looking up `id` after the in-place replacement branch of `AddRedirect`. -/
theorem lookup_replace (id : Nat) (r : ProxyRedirect) :
    ∀ rs : List (Nat × ProxyRedirect), rs.any (fun p => p.1 = id) = true →
      (rs.map (fun p => if p.1 = id then (id, r) else p)).lookup id = some r
  | [], h => by simp at h
  | (k, v) :: t, h => by
    by_cases ha : k = id
    · simp [List.lookup_cons, ha]
    · have ht : t.any (fun p => p.1 = id) = true := by
        simp only [List.any_cons, Bool.or_eq_true, decide_eq_true_eq] at h
        exact h.resolve_left ha
      simp [List.lookup_cons, ha, beq_false_of_ne (fun hc => ha hc.symm),
        lookup_replace id r t ht]

/-- Looking up `id` after the append branch of `AddRedirect`. -/
theorem lookup_append_new (id : Nat) (r : ProxyRedirect) :
    ∀ rs : List (Nat × ProxyRedirect), rs.any (fun p => p.1 = id) = false →
      (rs ++ [(id, r)]).lookup id = some r
  | [], _ => by simp [List.lookup_cons]
  | (k, v) :: t, h => by
    simp only [List.any_cons, Bool.or_eq_false_iff, decide_eq_false_iff_not] at h
    rw [List.cons_append]
    simp [List.lookup_cons, beq_false_of_ne (fun hc => h.1 hc.symm),
      lookup_append_new id r t h.2]

/-- C4: the source-uniqueness claim fails on the code — redirects are keyed by
their UUID, not by their source host, so adding `app.local` under id 2 after
adding `app.local` under id 1 leaves two coexisting redirects with the same
source. -/
theorem addRedirect_same_source_coexists :
    (1, ProxyRedirect.mk "app.local" "http://127.0.0.1:8080") ∈
      applyProxyOps [] [.add 1 ⟨"app.local", "http://127.0.0.1:8080"⟩,
        .add 2 ⟨"app.local", "http://127.0.0.1:9090"⟩] ∧
    (2, ProxyRedirect.mk "app.local" "http://127.0.0.1:9090") ∈
      applyProxyOps [] [.add 1 ⟨"app.local", "http://127.0.0.1:8080"⟩,
        .add 2 ⟨"app.local", "http://127.0.0.1:9090"⟩] ∧
    (1 : Nat) ≠ 2 ∧
    (ProxyRedirect.mk "app.local" "http://127.0.0.1:8080").source =
      (ProxyRedirect.mk "app.local" "http://127.0.0.1:9090").source := by
  refine ⟨?_, ?_, by decide, rfl⟩ <;> decide

/-- C4 amended: after any finite sequence of `AddRedirect`/`RemoveRedirect`
starting from the empty store, no two stored redirects share the same id, and
adding a redirect under an existing id replaces the prior entry for that id
(the store is keyed by id; source uniqueness is not enforced). -/
theorem redirect_ids_unique_add_replaces (ops : List ProxyOp)
    (rs : List (Nat × ProxyRedirect)) (id : Nat) (r : ProxyRedirect) :
    ((applyProxyOps [] ops).map Prod.fst).Nodup ∧
    (addRedirect rs id r).lookup id = some r := by
  refine ⟨applyProxyOps_keys_nodup ops [] (by simp), ?_⟩
  unfold addRedirect
  split
  · rename_i hany
    exact lookup_replace id r rs hany
  · rename_i hany
    exact lookup_append_new id r rs (Bool.eq_false_iff.mpr hany)

/-- C3: the tolerance claim fails on the code — a directory entry whose name
does not parse as a UUID makes the scan call `log.Fatal` (the `.error`
outcome), aborting the process although the storage root itself was read
successfully; nothing is skipped and no further entry is loaded.  The same
scan with the malformed entry removed succeeds, isolating the entry as the
cause. -/
theorem reload_malformed_name_is_fatal :
    reload (fun _ => none) (fun _ => .ok ())
        (.ok [⟨"not-a-uuid", true, false, none⟩]) =
      .error "invalid UUID not-a-uuid" ∧
    reload (fun _ => none) (fun _ => .ok ()) (.ok []) = .ok [] :=
  ⟨rfl, rfl⟩

/-- `Except.map` does not change success into failure or vice versa. -/
theorem isOk_map {ε α β : Type} (f : α → β) (x : Except ε α) :
    (x.map f).isOk = x.isOk := by
  cases x <;> rfl

/-- C3 amended: the startup scan aborts the process (`log.Fatal`) on the
first per-entry failure — an `entry.Info()` error, a directory/symlink name
that does not parse as a UUID, or a failing `Load` — exactly as it does when
the storage root itself is unavailable; it succeeds only when every entry is
clean. -/
theorem reload_ok_iff_no_entry_fails (parse : String → Option Nat)
    (load : Nat → Except String Unit) (es : List DirEntry) (msg : String) :
    (reload parse load (.ok es)).isOk =
      es.all (fun e => !(entryFails parse load e)) ∧
    reload parse load (.error msg) = .error msg := by
  refine ⟨?_, rfl⟩
  show (reloadEntries parse load es).isOk = _
  induction es with
  | nil => rfl
  | cons e rest ih =>
    rw [List.all_cons]
    unfold reloadEntries
    cases hinfo : e.infoErr with
    | some m => simp [entryFails, hinfo, Except.isOk, Except.toBool]
    | none =>
      cases hdir : e.isDir || e.isSymlink with
      | false =>
        simp only [hdir, Bool.false_eq_true, if_false]
        rw [ih]
        simp [entryFails, hinfo, hdir]
      | true =>
        simp only [hdir, if_true]
        cases hp : parse e.name with
        | none => simp [entryFails, hinfo, hdir, hp, Except.isOk, Except.toBool]
        | some id =>
          cases hl : load id with
          | error m => simp [entryFails, hinfo, hdir, hp, hl, Except.isOk, Except.toBool]
          | ok u => simp [entryFails, hinfo, hdir, hp, hl, isOk_map, ih]

/-- The outer port loop with an arbitrary accumulator appends exactly the
bindings of the ports that have a matching `port`-typed env definition. -/
theorem foldl_appendPortSpec (inst : DockerInstance) :
    ∀ (ports : List String) (acc : List String),
      ports.foldl (appendPortSpec inst) acc =
        acc ++ ports.filterMap (fun out =>
          (findPortEnv inst.envDefinitions out).map
            (fun e => envValue inst.envVariables e.name ++ ":" ++ out))
  | [], acc => by simp
  | out :: rest, acc => by
    rw [List.foldl_cons, List.filterMap_cons]
    cases h : findPortEnv inst.envDefinitions out with
    | none =>
      rw [show appendPortSpec inst acc out = acc by simp [appendPortSpec, h]]
      exact foldl_appendPortSpec inst rest acc
    | some e =>
      rw [show appendPortSpec inst acc out =
        acc ++ [envValue inst.envVariables e.name ++ ":" ++ out] by
          simp [appendPortSpec, h]]
      rw [foldl_appendPortSpec inst rest _]
      simp

/-- C5: when the manifest advertises ports, the computed port specs are
exactly one binding `envValue(e.name) + ":" + out` for each advertised
container-side port `out` that has a matching env definition `e` (the first
with `type = "port"` and default equal to `out`), while every advertised port
with no matching env definition contributes nothing — it is skipped, the
computation never fails. -/
theorem computePortSpecs_binds_matched_skips_unmatched (inst : DockerInstance)
    (ports : List String) (h : inst.methods.ports = some ports) :
    computePortSpecs inst =
      ports.filterMap (fun out =>
        (findPortEnv inst.envDefinitions out).map
          (fun e => envValue inst.envVariables e.name ++ ":" ++ out)) := by
  unfold computePortSpecs
  rw [h]
  simpa using foldl_appendPortSpec inst ports []

/-- C5 witness: with advertised ports `80/tcp` (paired to env `PORT`, current
value `8080`) and `443/tcp` (unpaired), the specs are exactly
`["8080:80/tcp"]` — the unpaired port is skipped. -/
theorem computePortSpecs_witness :
    computePortSpecs
        ⟨"u", [⟨"PORT", "port", "80/tcp"⟩], [("PORT", "8080")],
          ⟨none, some "nginx:latest", some ["80/tcp", "443/tcp"], none⟩⟩ =
      ["8080:80/tcp"] :=
  (computePortSpecs_binds_matched_skips_unmatched
      ⟨"u", [⟨"PORT", "port", "80/tcp"⟩], [("PORT", "8080")],
        ⟨none, some "nginx:latest", some ["80/tcp", "443/tcp"], none⟩⟩
      ["80/tcp", "443/tcp"] rfl).trans (by rfl)

/-- C7: the claim fails on the code — `setStatus(StatusRunning)` is executed
*before* `cmd.Start()`, so when the spawn fails the status has nevertheless
been set to running (and there is no further status change on the error
return: the instance is left reported as running). -/
theorem startManually_sets_running_despite_spawn_failure :
    startManually "vertex-spotify"
        ⟨.found, .notExist, .ok (), .ok (), .error "fork failed", false⟩ =
      ⟨[StatusRunning], true, some "fork failed"⟩ ∧
    StatusRunning ∈ (startManually "vertex-spotify"
        ⟨.found, .notExist, .ok (), .ok (), .error "fork failed", false⟩).statuses :=
  ⟨rfl, by decide⟩

/-- The spawn phase of `startManually`: once both pipes are created, the
status is set to running before `cmd.Start()` is even attempted, and on a
successful spawn the reaper eventually sets the status to off while `i.cmd`
is never cleared. -/
theorem nativeStartSpawn_spec (eff : NativeEffects) :
    (pipesOk eff = true →
      (nativeStartSpawn eff).statuses.head? = some StatusRunning) ∧
    ((nativeStartSpawn eff).result = none →
      (nativeStartSpawn eff).statuses = [StatusRunning, StatusOff] ∧
      (nativeStartSpawn eff).cmdSet = true) := by
  unfold nativeStartSpawn pipesOk
  cases hp1 : eff.stdoutPipe <;> cases hp2 : eff.stderrPipe <;>
    cases hsp : eff.spawnResult <;> simp [Except.isOk, Except.toBool]

/-- C7 amended: the status is set to running immediately *before* the spawn is
attempted — so whenever the executable is found and the pipes are created, the
first status set is running, also when the spawn then fails — and when the
spawned process exits the reaper sets the status to off, but the process
handle is not released (`i.cmd` stays set). -/
theorem startManually_status_trace (serviceId : String) (eff : NativeEffects) :
    (execFound eff = true → pipesOk eff = true →
      (startManually serviceId eff).statuses.head? = some StatusRunning) ∧
    ((startManually serviceId eff).result = none →
      (startManually serviceId eff).statuses = [StatusRunning, StatusOff] ∧
      (startManually serviceId eff).cmdSet = true) := by
  have h := nativeStartSpawn_spec eff
  unfold startManually
  cases hm : eff.statMain with
  | found => exact ⟨fun _ => h.1, h.2⟩
  | statErr m =>
    refine ⟨fun hf _ => ?_, fun hr => ?_⟩
    · simp [execFound, hm] at hf
    · simp at hr
  | notExist =>
    cases hs : eff.statSh with
    | found => exact ⟨fun _ => h.1, h.2⟩
    | statErr m =>
      refine ⟨fun hf _ => ?_, fun hr => ?_⟩
      · simp [execFound, hm, hs] at hf
      · simp at hr
    | notExist =>
      refine ⟨fun hf _ => ?_, fun hr => ?_⟩
      · simp [execFound, hm, hs] at hf
      · simp at hr

/-- C7 witness: a clean native start sets running then — on exit — off,
while the handle stays set. -/
theorem startManually_status_trace_witness :
    (startManually "vertex-spotify"
        ⟨.found, .notExist, .ok (), .ok (), .ok (), false⟩).statuses =
      [StatusRunning, StatusOff] ∧
    (startManually "vertex-spotify"
        ⟨.found, .notExist, .ok (), .ok (), .ok (), false⟩).cmdSet = true ∧
    (startManually "vertex-spotify"
        ⟨.found, .notExist, .ok (), .ok (), .ok (), false⟩).statuses.head? =
      some StatusRunning :=
  ⟨((startManually_status_trace "vertex-spotify"
      ⟨.found, .notExist, .ok (), .ok (), .ok (), false⟩).2 rfl).1,
   ((startManually_status_trace "vertex-spotify"
      ⟨.found, .notExist, .ok (), .ok (), .ok (), false⟩).2 rfl).2,
   (startManually_status_trace "vertex-spotify"
      ⟨.found, .notExist, .ok (), .ok (), .ok (), false⟩).1 rfl rfl⟩

/-- C1: the claim fails on the code — with an image-method manifest and the
pull failing, `Start` forwards the failure to `onErr` and returns it, but
never calls `setStatus(error)`: the last status set remains `building`. -/
theorem dockerStart_build_failure_skips_error_status :
    dockerStart ⟨"u1", [], [], ⟨none, some "nginx:latest", none, none⟩⟩
        ⟨.error "pull failed", .ok [], .ok (), .ok (), .ok "cid", fun _ => .ok ()⟩ =
      ⟨[StatusBuilding], ["pull failed"], some "pull failed"⟩ ∧
    StatusError ∉ (dockerStart ⟨"u1", [], [], ⟨none, some "nginx:latest", none, none⟩⟩
        ⟨.error "pull failed", .ok [], .ok (), .ok (), .ok "cid", fun _ => .ok ()⟩).statuses :=
  ⟨rfl, by decide⟩

/-- The start phase: `ContainerStart` failure yields `setStatus(error)` and
the error; success yields `setStatus(running)`. -/
theorem dockerStartFrom_cases (eff : DockerStartEffects) (id : String) :
    (∃ e, eff.startResult id = .error e ∧
      dockerStartFrom eff id = ⟨[StatusBuilding, StatusError], [], some e⟩) ∨
    (eff.startResult id = .ok () ∧
      dockerStartFrom eff id = ⟨[StatusBuilding, StatusRunning], [], none⟩) := by
  unfold dockerStartFrom
  cases hs : eff.startResult id with
  | error e => exact .inl ⟨e, rfl, rfl⟩
  | ok u => cases u; exact .inr ⟨rfl, rfl⟩

/-- The create phase either fails one of its steps — returning the error with
no status change — or hands an id to the start phase. -/
theorem dockerStartCreate_cases (inst : DockerInstance) (eff : DockerStartEffects) :
    (∃ e, dockerStartCreate inst eff = ⟨[StatusBuilding], [], some e⟩) ∨
    (∃ id, dockerStartCreate inst eff = dockerStartFrom eff id) := by
  unfold dockerStartCreate
  cases h1 : (if inst.methods.ports.isSome then eff.parsePortsResult
      else .ok () : Except String Unit) with
  | error e => exact .inl ⟨e, rfl⟩
  | ok u =>
    cases h2 : (if inst.methods.volumes.isSome then eff.absResult
        else .ok () : Except String Unit) with
    | error e => exact .inl ⟨e, rfl⟩
    | ok v =>
      cases h3 : eff.createResult with
      | error e => exact .inl ⟨e, rfl⟩
      | ok id => exact .inr ⟨id, rfl⟩

/-- Every run of `Start` is one of: build failure (logged to `onErr`), a
create-phase failure, a `ContainerStart` failure (with `setStatus(error)`), or
success (with `setStatus(running)`). -/
theorem dockerStart_cases (inst : DockerInstance) (eff : DockerStartEffects) :
    (∃ e, dockerStart inst eff = ⟨[StatusBuilding], [e], some e⟩) ∨
    (∃ e, dockerStart inst eff = ⟨[StatusBuilding], [], some e⟩) ∨
    (∃ id e, eff.startResult id = .error e ∧
      dockerStart inst eff = ⟨[StatusBuilding, StatusError], [], some e⟩) ∨
    (∃ id, eff.startResult id = .ok () ∧
      dockerStart inst eff = ⟨[StatusBuilding, StatusRunning], [], none⟩) := by
  unfold dockerStart
  cases hb : (if inst.methods.dockerfile.isSome then eff.buildResult
      else if inst.methods.image.isSome then eff.buildResult
      else .error "no Docker methods found" : Except String Unit) with
  | error e => exact .inl ⟨e, rfl⟩
  | ok u =>
    cases hg : getID eff.listResult (dockerContainerName inst) with
    | error ge =>
      cases ge with
      | containerNotFound =>
        rcases dockerStartCreate_cases inst eff with ⟨e, hc⟩ | ⟨id, hc⟩
        · exact .inr (.inl ⟨e, hc⟩)
        · rcases dockerStartFrom_cases eff id with ⟨e, hs, hf⟩ | ⟨hs, hf⟩
          · exact .inr (.inr (.inl ⟨id, e, hs, hc.trans hf⟩))
          · exact .inr (.inr (.inr ⟨id, hs, hc.trans hf⟩))
      | listFailed e => exact .inr (.inl ⟨e, rfl⟩)
      | removeFailed e => exact .inr (.inl ⟨e, rfl⟩)
    | ok id =>
      rcases dockerStartFrom_cases eff id with ⟨e, hs, hf⟩ | ⟨hs, hf⟩
      · exact .inr (.inr (.inl ⟨id, e, hs, hf⟩))
      · exact .inr (.inr (.inr ⟨id, hs, hf⟩))

/-- C1 amended: `Start` always sets `building` first; a fully successful run
ends with `running`; `setStatus(error)` is called exactly when
`ContainerStart` fails, while a build or create failure returns its error
with `building` as the last status set. -/
theorem dockerStart_status_trace (inst : DockerInstance) (eff : DockerStartEffects) :
    (dockerStart inst eff).statuses.head? = some StatusBuilding ∧
    ((dockerStart inst eff).result = none →
      (dockerStart inst eff).statuses = [StatusBuilding, StatusRunning]) ∧
    (∀ e, (dockerStart inst eff).result = some e →
      (dockerStart inst eff).statuses = [StatusBuilding] ∨
      (dockerStart inst eff).statuses = [StatusBuilding, StatusError]) ∧
    ((dockerStart inst eff).statuses = [StatusBuilding, StatusError] →
      ∃ id e, eff.startResult id = .error e ∧
        (dockerStart inst eff).result = some e) := by
  rcases dockerStart_cases inst eff with ⟨e, h⟩ | ⟨e, h⟩ | ⟨id, e, hs, h⟩ | ⟨id, hs, h⟩ <;>
    rw [h]
  · exact ⟨rfl, by simp, fun e' he' => .inl rfl,
      by intro hx; simp [StatusBuilding, StatusError] at hx⟩
  · exact ⟨rfl, by simp, fun e' he' => .inl rfl,
      by intro hx; simp [StatusBuilding, StatusError] at hx⟩
  · exact ⟨rfl, by simp, fun e' he' => .inr rfl, fun _ => ⟨id, e, hs, rfl⟩⟩
  · exact ⟨rfl, fun _ => rfl, by simp,
      by intro hx; simp [StatusRunning, StatusError] at hx⟩

/-- C1 witness: a clean docker start emits exactly `building` then
`running`. -/
theorem dockerStart_status_trace_witness :
    (dockerStart ⟨"u1", [], [], ⟨none, some "nginx:latest", none, none⟩⟩
        ⟨.ok (), .ok [], .ok (), .ok (), .ok "cid", fun _ => .ok ()⟩).statuses =
      [StatusBuilding, StatusRunning] :=
  (dockerStart_status_trace ⟨"u1", [], [], ⟨none, some "nginx:latest", none, none⟩⟩
      ⟨.ok (), .ok [], .ok (), .ok (), .ok "cid", fun _ => .ok ()⟩).2.1 rfl

end Vertex
